import Mathlib

/-!
Verification development for the shubh-chat video-call subsystem.

The definitions below are a shallow embedding of the call-session
negotiation code:
  - `src/components/VideoCall.tsx`  (caller side: snapshot handler,
    missed-call timer, cleanup, endCall, toggleScreenShare),
  - `src/components/VideoCallReceiver.tsx`  (receiver side: media
    fallback ladder `getLocalStream`, cleanup),
  - `src/App.tsx`  (MainApp incoming-call listener and `declineCall`).

Stateful React refs become fields of explicit state records; every
handler becomes a pure function `State → State × List Eff`, where the
effect list records the externally visible actions the handler performs
(Firestore writes, log appends, transport signalling, resource
releases).  Platform semantics used by the embedding: a destroyed
simple-peer instance throws on `signal` (the code catches the error) and
emits no further events; `clearTimeout` / `clearInterval` / `track.stop`
are no-ops on already-released handles.
-/

namespace ShubhChat

/-- Call status values stored in the shared `call` record
(`'calling' | 'active' | 'ended' | 'missed'`). -/
inductive CallStatus
  | calling
  | active
  | ended
  | missed
deriving DecidableEq, Repr

/-- The `call` object of a chat document as read by the snapshot
listeners: status, caller identity, offer/answer blobs (opaque payloads
modelled as `Nat` ids) and the creation timestamp in milliseconds. -/
structure CallDoc where
  status : CallStatus
  callerId : Nat
  callerName : String
  offer : Option Nat
  answer : Option Nat
  timestamp : Option Int
deriving DecidableEq, Repr

/-- Externally visible actions performed by the caller-side handlers of
`VideoCall.tsx`. -/
inductive Eff
  | writeCallRecord
  | writeOffer
  | writeStatus (s : CallStatus)
  | appendMissedLog
  | armMissedTimer
  | cancelMissedTimer
  | applyRemote (blob : Nat)
  | signalError
  | destroyPeer
  | releaseDurationTimer
  | releaseLocalStream
  | releaseScreenStream
  | startDurationClock
  | surfaceError
  | closeView
  | scheduleClose
deriving DecidableEq, Repr

/-- Caller-side mutable state of `VideoCall.tsx`: the React refs that
survive across callbacks of one call attempt. -/
structure CallerState where
  callStatusRef : CallStatus
  peerSignaled : Bool
  peerPresent : Bool
  peerDestroyed : Bool
  missedTimerPresent : Bool
  missedTimerLive : Bool
  durationRunning : Bool
  localStream : Option Nat
  localTracksStopped : Bool
  cameraTrack : Option Nat
  screenStream : Option Nat
  screenTracksStopped : Bool
  senderTrack : Option Nat
  isScreenSharing : Bool
deriving DecidableEq, Repr

/-- Emit an effect only when its guard holds (the guard marks the
release/action as effective, mirroring platform-idempotent primitives). -/
def flagEff (b : Bool) (e : Eff) : List Eff :=
  if b then [e] else []

/-- State after `cleanup()` (VideoCall.tsx lines 183-189): stop the
duration interval, clear the missed-call timeout, destroy the peer,
stop local and screen tracks.  The refs themselves are not nulled by
the source, so presence fields are kept. -/
def cleanupState (s : CallerState) : CallerState :=
  { s with durationRunning := false,
           missedTimerLive := false,
           peerDestroyed := s.peerDestroyed || s.peerPresent,
           localTracksStopped := s.localTracksStopped || s.localStream.isSome,
           screenTracksStopped := s.screenTracksStopped || s.screenStream.isSome }

/-- Effective releases performed by one `cleanup()` invocation, in
source order.  A release is effective only if the resource is still
held: `clearInterval`, `clearTimeout`, `destroy` and `track.stop` are
no-ops on already-released handles. -/
def cleanupEffs (s : CallerState) : List Eff :=
  flagEff s.durationRunning Eff.releaseDurationTimer ++
  flagEff s.missedTimerLive Eff.cancelMissedTimer ++
  flagEff (s.peerPresent && !s.peerDestroyed) Eff.destroyPeer ++
  flagEff (s.localStream.isSome && !s.localTracksStopped) Eff.releaseLocalStream ++
  flagEff (s.screenStream.isSome && !s.screenTracksStopped) Eff.releaseScreenStream

/-- The `cleanup()` function of `VideoCall.tsx`. -/
def cleanup (s : CallerState) : CallerState × List Eff :=
  (cleanupState s, cleanupEffs s)

/-- Invoking `peer.signal(blob)` inside `try/catch`: a destroyed peer
throws (caught, logged), a live peer applies the remote description. -/
def peerSignal (s : CallerState) (blob : Nat) : CallerState × List Eff :=
  if s.peerDestroyed then (s, [Eff.signalError]) else (s, [Eff.applyRemote blob])

/-- The caller's snapshot handler (`VideoCall.tsx` lines 63-95): the
answer branch guarded by `peerSignaledRef`, then the `ended` and
`missed` terminal branches guarded against re-entering the same
terminal status. -/
def handleSnapshot (s0 : CallerState) (c : CallDoc) : CallerState × List Eff :=
  let p1 :=
    if c.status = CallStatus.active ∧ c.answer.isSome = true ∧
       s0.peerPresent = true ∧ s0.peerSignaled = false then
      let cancels := flagEff (s0.missedTimerPresent && s0.missedTimerLive) Eff.cancelMissedTimer
      let s' := { s0 with peerSignaled := true, missedTimerLive := false }
      let p := peerSignal s' (c.answer.getD 0)
      (p.1, cancels ++ p.2)
    else (s0, ([] : List Eff))
  let s1 := p1.1
  let p2 :=
    if c.status = CallStatus.ended ∧ ¬ s1.callStatusRef = CallStatus.ended then
      let p := cleanup { s1 with callStatusRef := CallStatus.ended }
      (p.1, p.2 ++ [Eff.scheduleClose])
    else (s1, ([] : List Eff))
  let s2 := p2.1
  let p3 :=
    if c.status = CallStatus.missed ∧ ¬ s2.callStatusRef = CallStatus.missed then
      let p := cleanup { s2 with callStatusRef := CallStatus.missed }
      (p.1, p.2 ++ [Eff.scheduleClose])
    else (s2, ([] : List Eff))
  (p3.1, p1.2 ++ p2.2 ++ p3.2)

/-- Firing of the 30-second missed-call timeout (`VideoCall.tsx` lines
160-180).  The callback only runs when the timeout is still live (not
cleared); it then checks `callStatusRef === 'calling'`, appends the
missed-call log entry, writes `call.status: 'missed'`, moves the local
state to missed, cleans up, and schedules the view close. -/
def missedTimerFire (s : CallerState) : CallerState × List Eff :=
  if s.missedTimerLive = true then
    let s0 := { s with missedTimerLive := false }
    if s0.callStatusRef = CallStatus.calling then
      let p := cleanup { s0 with callStatusRef := CallStatus.missed }
      (p.1, [Eff.appendMissedLog, Eff.writeStatus CallStatus.missed] ++ p.2 ++
            [Eff.scheduleClose])
    else (s0, [])
  else (s, [])

/-- The `peer.on('stream')` handler (`VideoCall.tsx` lines 131-143):
sets the status to active and starts the duration interval.  A peer
that is absent or already destroyed emits no events, so the handler is
a no-op in that case. -/
def streamArrived (s : CallerState) : CallerState × List Eff :=
  if s.peerPresent = true ∧ s.peerDestroyed = false then
    ({ s with callStatusRef := CallStatus.active, durationRunning := true },
     [Eff.startDurationClock])
  else (s, [])

/-- The `endCall` function (`VideoCall.tsx` lines 191-200): guarded only
against the `ended` status, writes `call.status: 'ended'`, cleans up
and schedules the view close. -/
def endCall (s : CallerState) : CallerState × List Eff :=
  if s.callStatusRef = CallStatus.ended then (s, [])
  else
    let p := cleanup { s with callStatusRef := CallStatus.ended }
    (p.1, [Eff.writeStatus CallStatus.ended] ++ p.2 ++ [Eff.scheduleClose])

/-- The `toggleScreenShare` function (`VideoCall.tsx` lines 212-235).
`grant` is the outcome of `getDisplayMedia` (`none` = user denied /
failure, caught and logged).  The video `RTCRtpSender` is found exactly
when the peer connection is present and not destroyed. -/
def toggleScreenShare (s : CallerState) (grant : Option Nat) :
    CallerState × List Eff :=
  if s.isScreenSharing = true then
    let stops := flagEff (s.screenStream.isSome && !s.screenTracksStopped)
                   Eff.releaseScreenStream
    let sender := s.peerPresent && !s.peerDestroyed
    let newTrack := if sender = true ∧ s.cameraTrack.isSome = true
                    then s.cameraTrack else s.senderTrack
    ({ s with screenStream := none, screenTracksStopped := false,
              senderTrack := newTrack, isScreenSharing := false }, stops)
  else
    match grant with
    | none => (s, [])
    | some t =>
      let sender := s.peerPresent && !s.peerDestroyed
      let newTrack := if sender = true then some t else s.senderTrack
      ({ s with screenStream := some t, screenTracksStopped := false,
                senderTrack := newTrack, isScreenSharing := true }, [])

/-- Events consumed by the caller-side state machine during one call
attempt (after `initiateCall` has completed). -/
inductive CallerEvent
  | snapshot (c : CallDoc)
  | timerFire
  | streamEvt
  | offerReady
  | hangup
  | peerClosed
  | toggleShare (grant : Option Nat)
deriving DecidableEq, Repr

/-- One step of the caller-side state machine: dispatches an event to
the corresponding source handler. -/
def callerStep (s : CallerState) : CallerEvent → CallerState × List Eff
  | CallerEvent.snapshot c => handleSnapshot s c
  | CallerEvent.timerFire => missedTimerFire s
  | CallerEvent.streamEvt => streamArrived s
  | CallerEvent.offerReady => (s, [Eff.writeOffer])
  | CallerEvent.hangup => endCall s
  | CallerEvent.peerClosed =>
      if ¬ s.callStatusRef = CallStatus.ended then endCall s else (s, [])
  | CallerEvent.toggleShare g => toggleScreenShare s g

/-- Run the caller-side state machine over a list of events,
concatenating the emitted effects. -/
def callerRun (s : CallerState) : List CallerEvent → CallerState × List Eff
  | [] => (s, [])
  | e :: es =>
    let p := callerStep s e
    let q := callerRun p.1 es
    (q.1, p.2 ++ q.2)

/-- Caller state right after `initiateCall` has completed on stream
`sid`: status calling, peer created live and unsignalled, 30-second
missed-call timer armed, duration clock not started, camera stream
held and its video track outgoing. -/
def initialCallerState (sid : Nat) : CallerState :=
  { callStatusRef := CallStatus.calling,
    peerSignaled := false,
    peerPresent := true,
    peerDestroyed := false,
    missedTimerPresent := true,
    missedTimerLive := true,
    durationRunning := false,
    localStream := some sid,
    localTracksStopped := false,
    cameraTrack := some sid,
    screenStream := none,
    screenTracksStopped := false,
    senderTrack := some sid,
    isScreenSharing := false }

/-- Outcome of the caller's `getUserMedia` call. -/
inductive CaptureOutcome
  | granted (sid : Nat)
  | denied
deriving DecidableEq, Repr

/-- The caller's `init` effect (`VideoCall.tsx` lines 44-60) followed by
`initiateCall` (lines 103-181): on capture failure the attempt is
aborted (alert + `onClose`) before any Firestore write; on success the
call record is written (`status: 'calling'`), the peer is created and
the 30-second missed-call timer is armed. -/
def callerInit : CaptureOutcome → Option CallerState × List Eff
  | CaptureOutcome.granted sid =>
      (some (initialCallerState sid), [Eff.writeCallRecord, Eff.armMissedTimer])
  | CaptureOutcome.denied => (none, [Eff.surfaceError, Eff.closeView])

/-- Effects that are writes to the signaling channel (the shared chat
record) or appends to the conversation history. -/
def isSignalingWrite : Eff → Bool
  | Eff.writeCallRecord => true
  | Eff.writeOffer => true
  | Eff.writeStatus _ => true
  | Eff.appendMissedLog => true
  | _ => false

/-- Effects that apply a remote description to the transport session. -/
def isApplyRemote : Eff → Bool
  | Eff.applyRemote _ => true
  | _ => false

/-! Receiver side (`VideoCallReceiver.tsx`). -/

/-- Kind of local stream the receiver managed to capture. -/
inductive StreamKind
  | videoAudio
  | audioOnly
deriving DecidableEq, Repr

/-- Media environment of the receiver's browser: whether `getUserMedia`
exists at all, and whether the video+audio and the audio-only capture
requests succeed. -/
structure MediaEnv where
  supported : Bool
  videoAudioOk : Bool
  audioOk : Bool
deriving DecidableEq, Repr

/-- The receiver's `getLocalStream` fallback ladder
(`VideoCallReceiver.tsx` lines 14-30): try video+audio, then
audio-only, then give up with `null` — never throws. -/
def getLocalStream (env : MediaEnv) : Option StreamKind :=
  if env.supported = false then none
  else if env.videoAudioOk = true then some StreamKind.videoAudio
  else if env.audioOk = true then some StreamKind.audioOnly
  else none

/-- Receiver status values (`'connecting' | 'active' | 'ended'`). -/
inductive RecvStatus
  | connecting
  | active
  | ended
deriving DecidableEq, Repr

/-- Receiver-side mutable state of `VideoCallReceiver.tsx`. -/
structure ReceiverState where
  statusRef : RecvStatus
  noCamera : Bool
  peerCreated : Bool
  peerPresent : Bool
  peerDestroyed : Bool
  timerRunning : Bool
  localStream : Option StreamKind
  localTracksStopped : Bool
  screenStream : Option Nat
  screenTracksStopped : Bool
deriving DecidableEq, Repr

/-- Externally visible actions of the receiver-side handlers. -/
inductive REff
  | warnNoMedia
  | releaseTimer
  | destroyPeer
  | releaseLocalStream
  | releaseScreenStream
  | writeAnswerActive
  | writeStatus (s : CallStatus)
  | scheduleClose
deriving DecidableEq, Repr

/-- Emit a receiver effect only when its guard holds. -/
def flagREff (b : Bool) (e : REff) : List REff :=
  if b then [e] else []

/-- State after the receiver's `cleanup()` (`VideoCallReceiver.tsx`
lines 139-144): clear the duration interval, destroy the peer, stop
local and screen tracks. -/
def cleanupRState (s : ReceiverState) : ReceiverState :=
  { s with timerRunning := false,
           peerDestroyed := s.peerDestroyed || s.peerPresent,
           localTracksStopped := s.localTracksStopped || s.localStream.isSome,
           screenTracksStopped := s.screenTracksStopped || s.screenStream.isSome }

/-- Effective releases of one receiver `cleanup()` invocation, in source
order. -/
def cleanupREffs (s : ReceiverState) : List REff :=
  flagREff s.timerRunning REff.releaseTimer ++
  flagREff (s.peerPresent && !s.peerDestroyed) REff.destroyPeer ++
  flagREff (s.localStream.isSome && !s.localTracksStopped) REff.releaseLocalStream ++
  flagREff (s.screenStream.isSome && !s.screenTracksStopped) REff.releaseScreenStream

/-- The receiver's `cleanup()` function. -/
def cleanupR (s : ReceiverState) : ReceiverState × List REff :=
  (cleanupRState s, cleanupREffs s)

/-- Entry of `startReceivingCall` (`VideoCallReceiver.tsx` lines 72-81):
capture local media through the fallback ladder; on total failure set
the `noCamera` flag and proceed anyway (the attempt stays in
`connecting`, awaiting the offer snapshot — capture failure is never
fatal on the receiver side). -/
def receiverStart (env : MediaEnv) : ReceiverState × List REff :=
  let stream := getLocalStream env
  ({ statusRef := RecvStatus.connecting,
     noCamera := stream.isNone,
     peerCreated := false,
     peerPresent := false,
     peerDestroyed := false,
     timerRunning := false,
     localStream := stream,
     localTracksStopped := false,
     screenStream := none,
     screenTracksStopped := false },
   flagREff stream.isNone REff.warnNoMedia)

/-! MainApp incoming-call listener and decline (`src/App.tsx`). -/

/-- The incoming-call popup payload (`setIncomingCall` argument). -/
structure IncomingCallInfo where
  chatId : Nat
  callerName : String
  callerUid : Nat
  offer : Option Nat
deriving DecidableEq, Repr

/-- Firestore `docChanges()` change type. -/
inductive ChangeType
  | added
  | modified
  | removed
deriving DecidableEq, Repr

/-- One element of `snapshot.docChanges()` on the chats query: change
type, chat document id and its `call` field (absent when the chat has
no call object). -/
structure ChatChange where
  ctype : ChangeType
  chatId : Nat
  call : Option CallDoc
deriving DecidableEq, Repr

/-- App-level state touched by the incoming-call logic of `MainApp`. -/
structure AppState where
  incomingCall : Option IncomingCallInfo
  acceptedCall : Option IncomingCallInfo
  ringPlaying : Bool
deriving DecidableEq, Repr

/-- Externally visible actions of the MainApp call handlers. -/
inductive AppEff
  | surfaceRing
  | stopRingAudio
  | writeMissed (chatId : Nat)
  | appendMissedLog (chatId : Nat)
deriving DecidableEq, Repr

/-- The incoming-call branch of the MainApp listener (`App.tsx` lines
59-78): requires `status === 'calling'`, a foreign caller, no popup
already shown or accepted, and the freshness check
`Math.abs(Date.now() - timestamp) < 35000`; on success it displays the
popup and starts the ring audio. -/
def incomingCallBranch (now : Int) (selfUid : Nat) (s : AppState)
    (chg : ChatChange) : AppState × List AppEff :=
  match chg.call with
  | some call =>
    if call.status = CallStatus.calling ∧ ¬ call.callerId = selfUid ∧
       s.incomingCall = none ∧ s.acceptedCall = none then
      if (now - call.timestamp.getD 0).natAbs < 35000 then
        let ic : IncomingCallInfo :=
          { chatId := chg.chatId,
            callerName := call.callerName,
            callerUid := call.callerId,
            offer := call.offer }
        ({ s with incomingCall := some ic, ringPlaying := true },
         [AppEff.surfaceRing])
      else (s, ([] : List AppEff))
    else (s, ([] : List AppEff))
  | none => (s, ([] : List AppEff))

/-- The auto-dismiss branch (`App.tsx` lines 81-86): hide the popup and
pause the ring when the displayed call's record turns terminal.
`entryIncoming` is the `incomingCall` value captured by the callback's
closure (the entry state), `s1` the state the branch updates. -/
def dismissBranch (entryIncoming : Option IncomingCallInfo) (s1 : AppState)
    (chg : ChatChange) : AppState × List AppEff :=
  match entryIncoming with
  | some ic =>
    if chg.chatId = ic.chatId ∧
       ((chg.call.map CallDoc.status = some CallStatus.ended) ∨
        (chg.call.map CallDoc.status = some CallStatus.missed)) then
      ({ s1 with incomingCall := none, ringPlaying := false },
       [AppEff.stopRingAudio])
    else (s1, ([] : List AppEff))
  | none => (s1, ([] : List AppEff))

/-- The per-change body of the MainApp listener (`App.tsx` lines 38-88),
restricted to the call handling (the buzz branch touches only the
buzz-notification state and is independent of the call state).  Only
`'modified'` changes are processed; both branches read the
`incomingCall` value captured by the callback's closure, i.e. the
entry state. -/
def handleChatChange (now : Int) (selfUid : Nat) (s : AppState)
    (chg : ChatChange) : AppState × List AppEff :=
  if ¬ chg.ctype = ChangeType.modified then (s, [])
  else
    let p1 := incomingCallBranch now selfUid s chg
    let p2 := dismissBranch s.incomingCall p1.1 chg
    (p2.1, p1.2 ++ p2.2)

/-- The `declineCall` function (`App.tsx` lines 102-114): no-op when no
popup is displayed; otherwise pause the ring, write
`call.status: 'missed'`, append the missed-call log entry and hide the
popup. -/
def declineCall (s : AppState) : AppState × List AppEff :=
  match s.incomingCall with
  | none => (s, [])
  | some ic =>
    ({ s with incomingCall := none, ringPlaying := false },
     [AppEff.stopRingAudio, AppEff.writeMissed ic.chatId,
      AppEff.appendMissedLog ic.chatId])

/-- Three successive invocations of the caller's `cleanup()`, with the
effects of all three concatenated. -/
def cleanupThrice (s : CallerState) : CallerState × List Eff :=
  let p1 := cleanup s
  let p2 := cleanup p1.1
  let p3 := cleanup p2.1
  (p3.1, p1.2 ++ p2.2 ++ p3.2)

/-- Three successive invocations of the receiver's `cleanup()`. -/
def cleanupRThrice (s : ReceiverState) : ReceiverState × List REff :=
  let p1 := cleanupR s
  let p2 := cleanupR p1.1
  let p3 := cleanupR p2.1
  (p3.1, p1.2 ++ p2.2 ++ p3.2)

/-! Helper lemmas. -/

theorem bool_or_or (a b : Bool) : (a || b) || b = (a || b) := by
  cases a <;> cases b <;> rfl

theorem bool_and_not_or (a b : Bool) : (a && !(b || a)) = false := by
  cases a <;> cases b <;> rfl

theorem flagEff_count (b : Bool) (e e' : Eff) :
    (flagEff b e).count e' = if b = true ∧ e' = e then 1 else 0 := by
  cases b <;> simp [flagEff, List.count_singleton', eq_comm]

theorem flagREff_count (b : Bool) (e e' : REff) :
    (flagREff b e).count e' = if b = true ∧ e' = e then 1 else 0 := by
  cases b <;> simp [flagREff, List.count_singleton', eq_comm]

theorem flagEff_mem {b : Bool} {e e' : Eff} (h : e' ∈ flagEff b e) : e' = e := by
  cases b <;> simp_all [flagEff]

theorem cleanupEffs_mem {s : CallerState} {e : Eff} (h : e ∈ cleanupEffs s) :
    e = Eff.releaseDurationTimer ∨ e = Eff.cancelMissedTimer ∨
    e = Eff.destroyPeer ∨ e = Eff.releaseLocalStream ∨
    e = Eff.releaseScreenStream := by
  simp only [cleanupEffs, List.mem_append] at h
  rcases h with ((((h | h) | h) | h) | h) <;>
    first
      | exact Or.inl (flagEff_mem h)
      | exact Or.inr (Or.inl (flagEff_mem h))
      | exact Or.inr (Or.inr (Or.inl (flagEff_mem h)))
      | exact Or.inr (Or.inr (Or.inr (Or.inl (flagEff_mem h))))
      | exact Or.inr (Or.inr (Or.inr (Or.inr (flagEff_mem h))))

theorem cleanupState_fixed (s : CallerState) :
    cleanupState (cleanupState s) = cleanupState s := by
  simp [cleanupState, bool_or_or, Option.isSome_iff_ne_none]

theorem cleanupEffs_of_cleanupState (s : CallerState) :
    cleanupEffs (cleanupState s) = [] := by
  simp [cleanupEffs, cleanupState, flagEff, bool_and_not_or,
        Option.isSome_iff_ne_none]
  tauto

theorem cleanup_fixpoint (s : CallerState) :
    cleanup (cleanup s).1 = ((cleanup s).1, []) := by
  simp [cleanup, cleanupState_fixed, cleanupEffs_of_cleanupState]

theorem cleanupRState_fixed (s : ReceiverState) :
    cleanupRState (cleanupRState s) = cleanupRState s := by
  simp [cleanupRState, bool_or_or, Option.isSome_iff_ne_none]

theorem cleanupREffs_of_cleanupRState (s : ReceiverState) :
    cleanupREffs (cleanupRState s) = [] := by
  simp [cleanupREffs, cleanupRState, flagREff, bool_and_not_or,
        Option.isSome_iff_ne_none]
  tauto

theorem cleanupR_fixpoint (s : ReceiverState) :
    cleanupR (cleanupR s).1 = ((cleanupR s).1, []) := by
  simp [cleanupR, cleanupRState_fixed, cleanupREffs_of_cleanupRState]

theorem countP_flagEff (p : Eff → Bool) (b : Bool) (e : Eff) :
    (flagEff b e).countP p = if b = true ∧ p e = true then 1 else 0 := by
  cases b <;> cases h : p e <;> simp [flagEff, h, List.countP_cons]

/-- Effect predicate: a write of `call.status: 'missed'` to the shared
record. -/
def isMissedWrite : AppEff → Bool
  | AppEff.writeMissed _ => true
  | _ => false

/-- Effect predicate: an append of a missed-call log entry to the
conversation history. -/
def isMissedLogAppend : AppEff → Bool
  | AppEff.appendMissedLog _ => true
  | _ => false

/-! Claim theorems. -/

/-- C8: `cleanup()` is idempotent on both sides: three successive
invocations are observably equal to one; within that one invocation
every held resource (duration interval, missed-call timeout, peer,
local stream tracks, screen stream tracks) is effectively released
exactly once and unheld resources zero times, and the releases raise no
error (the effect lists contain only release actions). -/
theorem cleanup_thrice_idempotent (s : CallerState) (r : ReceiverState) :
    cleanupThrice s = cleanup s ∧
    cleanupRThrice r = cleanupR r ∧
    (cleanup s).2.count Eff.releaseDurationTimer =
      (if s.durationRunning = true then 1 else 0) ∧
    (cleanup s).2.count Eff.cancelMissedTimer =
      (if s.missedTimerLive = true then 1 else 0) ∧
    (cleanup s).2.count Eff.destroyPeer =
      (if (s.peerPresent && !s.peerDestroyed) = true then 1 else 0) ∧
    (cleanup s).2.count Eff.releaseLocalStream =
      (if (s.localStream.isSome && !s.localTracksStopped) = true then 1 else 0) ∧
    (cleanup s).2.count Eff.releaseScreenStream =
      (if (s.screenStream.isSome && !s.screenTracksStopped) = true then 1 else 0) ∧
    (cleanupR r).2.count REff.releaseTimer =
      (if r.timerRunning = true then 1 else 0) ∧
    (cleanupR r).2.count REff.destroyPeer =
      (if (r.peerPresent && !r.peerDestroyed) = true then 1 else 0) ∧
    (cleanupR r).2.count REff.releaseLocalStream =
      (if (r.localStream.isSome && !r.localTracksStopped) = true then 1 else 0) ∧
    (cleanupR r).2.count REff.releaseScreenStream =
      (if (r.screenStream.isSome && !r.screenTracksStopped) = true then 1 else 0) := by
  refine ⟨?_, ?_, ?_, ?_, ?_, ?_, ?_, ?_, ?_, ?_, ?_⟩
  · simp [cleanupThrice, cleanup_fixpoint]
  · simp [cleanupRThrice, cleanupR_fixpoint]
  all_goals
    simp [cleanup, cleanupR, cleanupEffs, cleanupREffs, List.count_append,
          flagEff_count, flagREff_count]

/-- C5: two successive invocations of `declineCall` on a displayed
incoming call produce exactly one `missed` status write and exactly one
missed-call log entry in total; the second invocation changes nothing
and emits nothing (a no-op, not an error). -/
theorem declineCall_twice_idempotent (s : AppState) (ic : IncomingCallInfo)
    (h : s.incomingCall = some ic) :
    ((declineCall s).2 ++ (declineCall (declineCall s).1).2).countP
        isMissedWrite = 1 ∧
    ((declineCall s).2 ++ (declineCall (declineCall s).1).2).countP
        isMissedLogAppend = 1 ∧
    ((declineCall s).2 ++ (declineCall (declineCall s).1).2).count
        (AppEff.writeMissed ic.chatId) = 1 ∧
    ((declineCall s).2 ++ (declineCall (declineCall s).1).2).count
        (AppEff.appendMissedLog ic.chatId) = 1 ∧
    declineCall (declineCall s).1 = ((declineCall s).1, []) := by
  simp [declineCall, h, isMissedWrite, isMissedLogAppend, List.countP_cons]

/-- C5 witness: declining twice from a concrete state with a displayed
incoming call yields one missed write, one log entry, and a no-op
second invocation. -/
theorem declineCall_twice_idempotent_witness :
    (let s : AppState :=
      { incomingCall := some { chatId := 3, callerName := "a", callerUid := 7,
                               offer := some 1 },
        acceptedCall := none, ringPlaying := true }
     ((declineCall s).2 ++ (declineCall (declineCall s).1).2).countP
        isMissedWrite = 1 ∧
     declineCall (declineCall s).1 = ((declineCall s).1, [])) := by
  refine ⟨?_, ?_⟩
  · exact (declineCall_twice_idempotent _ _ rfl).1
  · exact (declineCall_twice_idempotent _
      { chatId := 3, callerName := "a", callerUid := 7, offer := some 1 }
      rfl).2.2.2.2

/-- C10: the MainApp listener only reacts to `'modified'` document
changes: a ring prompt can only be surfaced by a modification
notification, and a change of type `'added'` (how the initial
subscription snapshot delivers an already-present record) leaves the
state untouched and emits nothing — regardless of how fresh the
record's timestamp is. -/
theorem ring_prompt_modified_only (now : Int) (selfUid : Nat) (s : AppState)
    (chg : ChatChange) :
    (AppEff.surfaceRing ∈ (handleChatChange now selfUid s chg).2 →
        chg.ctype = ChangeType.modified) ∧
    (chg.ctype = ChangeType.added →
        handleChatChange now selfUid s chg = (s, [])) := by
  constructor
  · intro hm
    by_contra hne
    simp [handleChatChange, hne] at hm
  · intro ha
    have : ¬ chg.ctype = ChangeType.modified := by simp [ha]
    simp [handleChatChange, this]

/-- C10 witness: an `'added'` change carrying a perfectly fresh
`calling` record with an offer from a foreign caller leaves the state
untouched and surfaces nothing. -/
theorem ring_prompt_modified_only_witness :
    handleChatChange 1000 5
        { incomingCall := none, acceptedCall := none, ringPlaying := false }
        { ctype := ChangeType.added, chatId := 3,
          call := some { status := CallStatus.calling, callerId := 7,
                         callerName := "a", offer := some 1, answer := none,
                         timestamp := some 1000 } } =
      ({ incomingCall := none, acceptedCall := none, ringPlaying := false },
       []) := by
  exact (ring_prompt_modified_only 1000 5 _ _).2 rfl

/-- C9: toggling screen share on and then off round-trips the outgoing
video track: the on-toggle makes the screen track outgoing, the
off-toggle restores the original camera track, and the peer session is
never destroyed in the process. -/
theorem screen_share_round_trip (s : CallerState) (k t : Nat)
    (g2 : Option Nat)
    (hshare : s.isScreenSharing = false)
    (hp : s.peerPresent = true) (hnd : s.peerDestroyed = false)
    (hcam : s.cameraTrack = some k) (_hsend : s.senderTrack = some k) :
    (toggleScreenShare s (some t)).1.isScreenSharing = true ∧
    (toggleScreenShare s (some t)).1.senderTrack = some t ∧
    (toggleScreenShare (toggleScreenShare s (some t)).1 g2).1.senderTrack
      = some k ∧
    (toggleScreenShare (toggleScreenShare s (some t)).1 g2).1.isScreenSharing
      = false ∧
    (toggleScreenShare (toggleScreenShare s (some t)).1 g2).1.peerPresent
      = true ∧
    (toggleScreenShare (toggleScreenShare s (some t)).1 g2).1.peerDestroyed
      = false ∧
    Eff.destroyPeer ∉ (toggleScreenShare s (some t)).2 ∧
    Eff.destroyPeer ∉
      (toggleScreenShare (toggleScreenShare s (some t)).1 g2).2 := by
  simp [toggleScreenShare, hshare, hp, hnd, hcam, flagEff]

/-- C9 witness: the round trip on the concrete post-`initiateCall`
state with camera track 0 and screen track 5. -/
theorem screen_share_round_trip_witness :
    (toggleScreenShare
        (toggleScreenShare (initialCallerState 0) (some 5)).1 none).1.senderTrack
      = some 0 ∧
    (toggleScreenShare
        (toggleScreenShare (initialCallerState 0) (some 5)).1 none).1.peerDestroyed
      = false := by
  have h := screen_share_round_trip (initialCallerState 0) 0 5 none rfl rfl rfl
    rfl rfl
  exact ⟨h.2.2.1, h.2.2.2.2.2.1⟩

/-- C7: media-capture failure is asymmetric.  The caller aborts the
attempt on capture failure, surfacing an error and closing the view,
with zero writes to the signaling channel or the history; the receiver
always proceeds (stays `connecting`) for every media environment,
degrading through the ladder video+audio → audio-only → no local
stream with the no-camera flag set. -/
theorem media_failure_asymmetry :
    ((callerInit CaptureOutcome.denied).1 = none ∧
     (callerInit CaptureOutcome.denied).2.countP isSignalingWrite = 0 ∧
     Eff.surfaceError ∈ (callerInit CaptureOutcome.denied).2 ∧
     Eff.closeView ∈ (callerInit CaptureOutcome.denied).2) ∧
    (∀ env : MediaEnv,
      (receiverStart env).1.statusRef = RecvStatus.connecting ∧
      (receiverStart env).1.noCamera = (getLocalStream env).isNone ∧
      getLocalStream env =
        (if env.supported = true ∧ env.videoAudioOk = true then
           some StreamKind.videoAudio
         else if env.supported = true ∧ env.audioOk = true then
           some StreamKind.audioOnly
         else none)) := by
  constructor
  · refine ⟨rfl, by decide, by decide, by decide⟩
  · intro env
    obtain ⟨a, b, c⟩ := env
    cases a <;> cases b <;> cases c <;>
      simp [receiverStart, getLocalStream]

theorem dismissBranch_no_ring (entryIncoming : Option IncomingCallInfo)
    (s1 : AppState) (chg : ChatChange) :
    AppEff.surfaceRing ∉ (dismissBranch entryIncoming s1 chg).2 := by
  cases entryIncoming with
  | none => simp [dismissBranch]
  | some ic =>
    simp only [dismissBranch]
    split_ifs <;> simp

theorem incomingCallBranch_ring_fresh (now : Int) (selfUid : Nat)
    (s : AppState) (chg : ChatChange) (c : CallDoc)
    (hc : chg.call = some c)
    (hm : AppEff.surfaceRing ∈ (incomingCallBranch now selfUid s chg).2) :
    (now - c.timestamp.getD 0).natAbs < 35000 := by
  simp only [incomingCallBranch, hc] at hm
  split_ifs at hm with h1 h2
  · exact h2
  · simp at hm
  · simp at hm

/-- C4: the receiver surfaces a ring prompt only when the observed
record's start timestamp is within the 35-second freshness window at
observation time (`Math.abs(now - startedAt) < 35000`); in particular a
`calling` record whose `startedAt` is 35 seconds old or older never
surfaces a ring prompt. -/
theorem ring_prompt_freshness (now : Int) (selfUid : Nat) (s : AppState)
    (chg : ChatChange) (c : CallDoc) (ts : Int)
    (hc : chg.call = some c) (hts : c.timestamp = some ts) :
    (AppEff.surfaceRing ∈ (handleChatChange now selfUid s chg).2 →
        (now - ts).natAbs < 35000) ∧
    (35000 ≤ now - ts →
        AppEff.surfaceRing ∉ (handleChatChange now selfUid s chg).2) := by
  have key : AppEff.surfaceRing ∈ (handleChatChange now selfUid s chg).2 →
      (now - ts).natAbs < 35000 := by
    intro hm
    by_cases hmod : ¬ chg.ctype = ChangeType.modified
    · simp [handleChatChange, hmod] at hm
    · simp only [handleChatChange, hmod, if_false, List.mem_append] at hm
      rcases hm with hm | hm
      · have := incomingCallBranch_ring_fresh now selfUid s chg c hc hm
        simpa [hts] using this
      · exact absurd hm (dismissBranch_no_ring _ _ _)
  refine ⟨key, fun hstale hm => ?_⟩
  have := key hm
  omega

/-- C4 witness: with the record started at time 0 and observed at time
40000 (40 seconds later), no ring prompt is surfaced. -/
theorem ring_prompt_freshness_witness :
    (35000 : Int) ≤ 40000 - 0 ∧
    AppEff.surfaceRing ∉ (handleChatChange 40000 5
        { incomingCall := none, acceptedCall := none, ringPlaying := false }
        { ctype := ChangeType.modified, chatId := 3,
          call := some { status := CallStatus.calling, callerId := 7,
                         callerName := "a", offer := some 1, answer := none,
                         timestamp := some 0 } }).2 := by
  refine ⟨by decide, ?_⟩
  exact (ring_prompt_freshness 40000 5 _ _
      { status := CallStatus.calling, callerId := 7, callerName := "a",
        offer := some 1, answer := none, timestamp := some 0 } 0
      rfl rfl).2 (by decide)

theorem handleSnapshot_signaled_active (s : CallerState) (c : CallDoc)
    (hsig : s.peerSignaled = true) (hst : c.status = CallStatus.active) :
    handleSnapshot s c = (s, []) := by
  simp [handleSnapshot, hsig, hst]

/-- C6 counterexample: on the post-`initiateCall` state, observing the
remote write with `status: 'active'` and an answer does apply the
remote description (once) but leaves the local status at `calling` and
does not start the duration clock — the move to ACTIVE happens only at
the later `stream` event, not at the observation instant as the claim
states. -/
theorem answer_observed_not_active_counterexample :
    (handleSnapshot (initialCallerState 0)
        { status := CallStatus.active, callerId := 7, callerName := "a",
          offer := some 1, answer := some 42,
          timestamp := some 0 }).2.countP isApplyRemote = 1 ∧
    (handleSnapshot (initialCallerState 0)
        { status := CallStatus.active, callerId := 7, callerName := "a",
          offer := some 1, answer := some 42,
          timestamp := some 0 }).1.callStatusRef = CallStatus.calling ∧
    (handleSnapshot (initialCallerState 0)
        { status := CallStatus.active, callerId := 7, callerName := "a",
          offer := some 1, answer := some 42,
          timestamp := some 0 }).1.durationRunning = false := by
  refine ⟨by decide, by decide, by decide⟩

/-- C6 (amended): when the caller observes `status: 'active'` with an
answer present and the idempotency guard is clear, it applies the
remote description exactly once and cancels the missed-call timeout at
that instant, but stays in `calling` with the duration clock stopped;
the move to ACTIVE and the clock start happen when the transport
session's remote stream arrives. -/
theorem answer_observation_behavior (s : CallerState) (c : CallDoc) (b : Nat)
    (hst : s.callStatusRef = CallStatus.calling)
    (hp : s.peerPresent = true) (hnd : s.peerDestroyed = false)
    (hns : s.peerSignaled = false)
    (hc : c.status = CallStatus.active) (ha : c.answer = some b) :
    (handleSnapshot s c).2.count (Eff.applyRemote b) = 1 ∧
    (handleSnapshot s c).1.peerSignaled = true ∧
    (handleSnapshot s c).1.missedTimerLive = false ∧
    (handleSnapshot s c).1.callStatusRef = CallStatus.calling ∧
    (handleSnapshot s c).1.durationRunning = s.durationRunning ∧
    Eff.startDurationClock ∉ (handleSnapshot s c).2 ∧
    (streamArrived (handleSnapshot s c).1).1.callStatusRef =
      CallStatus.active ∧
    (streamArrived (handleSnapshot s c).1).1.durationRunning = true ∧
    Eff.startDurationClock ∈ (streamArrived (handleSnapshot s c).1).2 := by
  have h1 : handleSnapshot s c =
      ({ s with
          peerSignaled := true
          missedTimerLive := false },
       flagEff (s.missedTimerPresent && s.missedTimerLive)
           Eff.cancelMissedTimer ++ [Eff.applyRemote b]) := by
    simp [handleSnapshot, peerSignal, hst, hp, hnd, hns, hc, ha]
  rw [h1]
  cases hb : (s.missedTimerPresent && s.missedTimerLive) <;>
    simp [streamArrived, flagEff, hb, hp, hnd, hst]

/-- C6 witness: the amended behaviour at the concrete
post-`initiateCall` state with answer blob 42. -/
theorem answer_observation_behavior_witness :
    (handleSnapshot (initialCallerState 0)
        { status := CallStatus.active, callerId := 7, callerName := "b",
          offer := some 1, answer := some 42,
          timestamp := some 0 }).2.count (Eff.applyRemote 42) = 1 ∧
    (streamArrived (handleSnapshot (initialCallerState 0)
        { status := CallStatus.active, callerId := 7, callerName := "b",
          offer := some 1, answer := some 42,
          timestamp := some 0 }).1).1.callStatusRef = CallStatus.active := by
  have h := answer_observation_behavior (initialCallerState 0)
      { status := CallStatus.active, callerId := 7, callerName := "b",
        offer := some 1, answer := some 42, timestamp := some 0 }
      42 rfl rfl rfl rfl rfl rfl
  exact ⟨h.1, h.2.2.2.2.2.2.1⟩

theorem callerStep_peerPresent (t : CallerState) (e : CallerEvent) :
    (callerStep t e).1.peerPresent = t.peerPresent := by
  cases e with
  | snapshot c =>
    simp only [callerStep, handleSnapshot, peerSignal, cleanup, cleanupState]
    split_ifs <;> simp
  | timerFire =>
    simp only [callerStep, missedTimerFire, cleanup, cleanupState]
    split_ifs <;> simp
  | streamEvt =>
    simp only [callerStep, streamArrived]
    split_ifs <;> simp
  | offerReady => simp [callerStep]
  | hangup =>
    simp only [callerStep, endCall, cleanup, cleanupState]
    split_ifs <;> simp
  | peerClosed =>
    simp only [callerStep, endCall, cleanup, cleanupState]
    split_ifs <;> simp
  | toggleShare g =>
    cases g <;> simp only [callerStep, toggleScreenShare] <;>
      split_ifs <;> simp

theorem callerStep_destroyed_mono (t : CallerState) (e : CallerEvent)
    (h : t.peerDestroyed = true) :
    (callerStep t e).1.peerDestroyed = true := by
  cases e with
  | snapshot c =>
    simp only [callerStep, handleSnapshot, peerSignal, cleanup, cleanupState]
    split_ifs <;> simp [h]
  | timerFire =>
    simp only [callerStep, missedTimerFire, cleanup, cleanupState]
    split_ifs <;> simp [h]
  | streamEvt =>
    simp only [callerStep, streamArrived]
    split_ifs <;> simp [h]
  | offerReady => simp [callerStep, h]
  | hangup =>
    simp only [callerStep, endCall, cleanup, cleanupState]
    split_ifs <;> simp [h]
  | peerClosed =>
    simp only [callerStep, endCall, cleanup, cleanupState]
    split_ifs <;> simp [h]
  | toggleShare g =>
    cases g <;> simp only [callerStep, toggleScreenShare] <;>
      split_ifs <;> simp [h]

theorem callerStep_terminal (t : CallerState) (e : CallerEvent)
    (hterm : t.callStatusRef = CallStatus.ended ∨
             t.callStatusRef = CallStatus.missed)
    (hpd : t.peerPresent = true → t.peerDestroyed = true) :
    (callerStep t e).1.callStatusRef = CallStatus.ended ∨
    (callerStep t e).1.callStatusRef = CallStatus.missed := by
  cases e with
  | snapshot c =>
    simp only [callerStep, handleSnapshot, peerSignal, cleanup, cleanupState]
    split_ifs <;> simp_all
  | timerFire =>
    simp only [callerStep, missedTimerFire, cleanup, cleanupState]
    split_ifs <;> simp_all
  | streamEvt =>
    have hng : ¬ (t.peerPresent = true ∧ t.peerDestroyed = false) := by
      rintro ⟨h1, h2⟩
      rw [hpd h1] at h2
      exact absurd h2 (by simp)
    simp only [callerStep, streamArrived, if_neg hng]
    exact hterm
  | offerReady => simpa [callerStep] using hterm
  | hangup =>
    simp only [callerStep, endCall, cleanup, cleanupState]
    split_ifs <;> simp_all
  | peerClosed =>
    simp only [callerStep, endCall, cleanup, cleanupState]
    split_ifs <;> simp_all
  | toggleShare g =>
    cases g <;> simp only [callerStep, toggleScreenShare] <;>
      split_ifs <;> simp_all

theorem callerRun_terminal_inv (t : CallerState) (evs : List CallerEvent)
    (hterm : t.callStatusRef = CallStatus.ended ∨
             t.callStatusRef = CallStatus.missed)
    (hpd : t.peerPresent = true → t.peerDestroyed = true) :
    ((callerRun t evs).1.callStatusRef = CallStatus.ended ∨
     (callerRun t evs).1.callStatusRef = CallStatus.missed) ∧
    ((callerRun t evs).1.peerPresent = true →
     (callerRun t evs).1.peerDestroyed = true) := by
  induction evs generalizing t with
  | nil => exact ⟨hterm, hpd⟩
  | cons e es ih =>
    simp only [callerRun]
    exact ih (callerStep t e).1 (callerStep_terminal t e hterm hpd)
      (fun hp => callerStep_destroyed_mono t e
        (hpd ((callerStep_peerPresent t e) ▸ hp)))

theorem handleSnapshot_active_ref (s : CallerState) (c : CallDoc)
    (hc : c.status = CallStatus.active) :
    (handleSnapshot s c).1.callStatusRef = s.callStatusRef := by
  simp only [handleSnapshot, peerSignal, hc]
  split_ifs <;> simp_all

theorem handleSnapshot_active_countP (s : CallerState) (c : CallDoc)
    (hc : c.status = CallStatus.active)
    (hpd : s.peerPresent = true → s.peerDestroyed = true) :
    (handleSnapshot s c).2.countP isApplyRemote = 0 := by
  simp only [handleSnapshot, peerSignal, hc]
  split_ifs with h1 h2 <;>
    simp_all [List.countP_append, countP_flagEff, isApplyRemote,
      List.countP_cons]

/-- C1 counterexample: the claim "once terminal, every later-observed
notification is ignored" fails on the code.  After a local hangup the
caller is in the terminal state `ended`; a later notification carrying
`status: 'missed'` is not ignored: the terminal-branch guard only
checks `callStatusRef !== 'missed'`, so the caller switches its local
state from `ended` to `missed` and schedules another view close. -/
theorem terminal_notification_not_ignored_counterexample :
    (callerRun (initialCallerState 0) [CallerEvent.hangup]).1.callStatusRef =
      CallStatus.ended ∧
    (handleSnapshot (callerRun (initialCallerState 0) [CallerEvent.hangup]).1
        { status := CallStatus.missed, callerId := 7, callerName := "a",
          offer := some 1, answer := none,
          timestamp := some 0 }).1.callStatusRef = CallStatus.missed ∧
    ¬ (handleSnapshot (callerRun (initialCallerState 0) [CallerEvent.hangup]).1
        { status := CallStatus.missed, callerId := 7, callerName := "a",
          offer := some 1, answer := none,
          timestamp := some 0 }).2 = [] := by
  refine ⟨by decide, by decide, by decide⟩

/-- C1 (amended): the terminal status set is absorbing but its two
members are not individually: once the caller is in `ended` or `missed`
(with the peer already destroyed by the teardown that accompanied the
terminal entry), no sequence of events ever returns it to
`calling`/`active` — though cross-notifications can still flip it
between the two terminal statuses; and a late answer observed after
`MISSED` leaves the local state `missed` and is never applied to the
transport session (the signal attempt on the destroyed peer errors and
is swallowed). -/
theorem terminal_statuses_absorbing (s : CallerState)
    (hterm : s.callStatusRef = CallStatus.ended ∨
             s.callStatusRef = CallStatus.missed)
    (hpd : s.peerPresent = true → s.peerDestroyed = true) :
    (∀ evs : List CallerEvent,
        (callerRun s evs).1.callStatusRef = CallStatus.ended ∨
        (callerRun s evs).1.callStatusRef = CallStatus.missed) ∧
    (∀ c : CallDoc, s.callStatusRef = CallStatus.missed →
        c.status = CallStatus.active →
        (handleSnapshot s c).1.callStatusRef = CallStatus.missed ∧
        (handleSnapshot s c).2.countP isApplyRemote = 0) := by
  constructor
  · intro evs
    exact (callerRun_terminal_inv s evs hterm hpd).1
  · intro c hm hc
    exact ⟨(handleSnapshot_active_ref s c hc).trans hm,
           handleSnapshot_active_countP s c hc hpd⟩

/-- C1 witness: starting from the state reached when the 30-second
timer fires (terminal `missed`, peer destroyed), a further event leaves
the status terminal, and a late answer notification leaves the status
`missed` without any remote-description application. -/
theorem terminal_statuses_absorbing_witness :
    ((callerRun ((callerRun (initialCallerState 0)
          [CallerEvent.timerFire]).1)
        [CallerEvent.streamEvt]).1.callStatusRef = CallStatus.ended ∨
     (callerRun ((callerRun (initialCallerState 0)
          [CallerEvent.timerFire]).1)
        [CallerEvent.streamEvt]).1.callStatusRef = CallStatus.missed) ∧
    (handleSnapshot ((callerRun (initialCallerState 0)
          [CallerEvent.timerFire]).1)
        { status := CallStatus.active, callerId := 7, callerName := "a",
          offer := some 1, answer := some 42,
          timestamp := some 0 }).1.callStatusRef = CallStatus.missed ∧
    (handleSnapshot ((callerRun (initialCallerState 0)
          [CallerEvent.timerFire]).1)
        { status := CallStatus.active, callerId := 7, callerName := "a",
          offer := some 1, answer := some 42,
          timestamp := some 0 }).2.countP isApplyRemote = 0 := by
  have h := terminal_statuses_absorbing
      ((callerRun (initialCallerState 0) [CallerEvent.timerFire]).1)
      (Or.inr (by decide)) (by decide)
  exact ⟨h.1 [CallerEvent.streamEvt],
         (h.2 { status := CallStatus.active, callerId := 7,
                callerName := "a", offer := some 1, answer := some 42,
                timestamp := some 0 } (by decide) rfl).1,
         (h.2 { status := CallStatus.active, callerId := 7,
                callerName := "a", offer := some 1, answer := some 42,
                timestamp := some 0 } (by decide) rfl).2⟩

theorem callerRun_replicate_signaled (s : CallerState) (c : CallDoc)
    (n : Nat) (hsig : s.peerSignaled = true)
    (hst : c.status = CallStatus.active) :
    callerRun s (List.replicate n (CallerEvent.snapshot c)) = (s, []) := by
  induction n with
  | zero => simp [callerRun]
  | succ m ih =>
    simp only [List.replicate_succ, callerRun, callerStep,
      handleSnapshot_signaled_active s c hsig hst, ih, List.append_nil]

theorem cleanupEffs_countP_apply (u : CallerState) :
    (cleanupEffs u).countP isApplyRemote = 0 := by
  simp [cleanupEffs, List.countP_append, countP_flagEff, isApplyRemote]

/-- Number of further remote-description applications the
`peerSignaledRef` guard still allows. -/
def applyBudget (t : CallerState) : Nat :=
  if t.peerSignaled = true then 0 else 1

theorem callerStep_apply_bound (t : CallerState) (e : CallerEvent) :
    (callerStep t e).2.countP isApplyRemote +
      applyBudget (callerStep t e).1 ≤ applyBudget t := by
  cases e with
  | snapshot c =>
    simp only [callerStep, handleSnapshot, peerSignal, cleanup]
    split_ifs <;>
      simp_all [applyBudget, List.countP_append, countP_flagEff,
        isApplyRemote, List.countP_cons, cleanupEffs_countP_apply,
        cleanupState]
  | timerFire =>
    simp only [callerStep, missedTimerFire, cleanup]
    split_ifs <;>
      simp_all [applyBudget, List.countP_append, isApplyRemote,
        List.countP_cons, cleanupEffs_countP_apply, cleanupState]
  | streamEvt =>
    simp only [callerStep, streamArrived]
    split_ifs <;> simp [applyBudget, isApplyRemote, List.countP_cons]
  | offerReady => simp [callerStep, applyBudget, isApplyRemote,
      List.countP_cons]
  | hangup =>
    simp only [callerStep, endCall, cleanup]
    split_ifs <;>
      simp_all [applyBudget, List.countP_append, isApplyRemote,
        List.countP_cons, cleanupEffs_countP_apply, cleanupState]
  | peerClosed =>
    simp only [callerStep, endCall, cleanup]
    split_ifs <;>
      simp_all [applyBudget, List.countP_append, isApplyRemote,
        List.countP_cons, cleanupEffs_countP_apply, cleanupState]
  | toggleShare g =>
    cases g <;> simp only [callerStep, toggleScreenShare] <;>
      split_ifs <;>
      simp_all [applyBudget, List.countP_append, countP_flagEff,
        isApplyRemote]

theorem callerRun_apply_bound (t : CallerState) (evs : List CallerEvent) :
    (callerRun t evs).2.countP isApplyRemote +
      applyBudget (callerRun t evs).1 ≤ applyBudget t := by
  induction evs generalizing t with
  | nil => simp [callerRun]
  | cons e es ih =>
    simp only [callerRun, List.countP_append]
    have h1 := callerStep_apply_bound t e
    have h2 := ih (callerStep t e).1
    omega

/-- C2: starting from the post-`initiateCall` state, a subscription that
delivers any positive number of duplicate notifications all carrying the
same answer payload (`status: 'active'` with `answer` set) causes the
remote description to be applied to the transport session exactly once —
the `peerSignaledRef` guard suppresses every delivery after the first —
and over an arbitrary event sequence of the attempt the remote
description is never applied more than once. -/
theorem duplicate_answer_applied_once (sid cid b : Nat) (nm : String)
    (ofr : Option Nat) (ts : Option Int) (n : Nat) (hn : 0 < n) :
    ((callerRun (initialCallerState sid)
        (List.replicate n (CallerEvent.snapshot
          { status := CallStatus.active, callerId := cid, callerName := nm,
            offer := ofr, answer := some b,
            timestamp := ts }))).2.countP isApplyRemote) = 1 ∧
    (∀ evs : List CallerEvent,
      (callerRun (initialCallerState sid) evs).2.countP isApplyRemote ≤ 1) := by
  constructor
  · obtain ⟨m, rfl⟩ : ∃ m, n = m + 1 := ⟨n - 1, by omega⟩
    rw [List.replicate_succ]
    simp only [callerRun, callerStep]
    have hfirst : handleSnapshot (initialCallerState sid)
          { status := CallStatus.active, callerId := cid, callerName := nm,
            offer := ofr, answer := some b, timestamp := ts } =
        ({ (initialCallerState sid) with
            peerSignaled := true
            missedTimerLive := false },
         [Eff.cancelMissedTimer, Eff.applyRemote b]) := by
      simp [handleSnapshot, initialCallerState, peerSignal, flagEff]
    rw [hfirst, callerRun_replicate_signaled _ _ m rfl rfl]
    simp [isApplyRemote, List.countP_cons]
  · intro evs
    have h := callerRun_apply_bound (initialCallerState sid) evs
    have hb : applyBudget (initialCallerState sid) = 1 := rfl
    omega

theorem cleanupEffs_count_other (t : CallerState) (e : Eff)
    (h1 : ¬ e = Eff.releaseDurationTimer) (h2 : ¬ e = Eff.cancelMissedTimer)
    (h3 : ¬ e = Eff.destroyPeer) (h4 : ¬ e = Eff.releaseLocalStream)
    (h5 : ¬ e = Eff.releaseScreenStream) :
    (cleanupEffs t).count e = 0 := by
  simp [cleanupEffs, List.count_append, flagEff_count, h1, h2, h3, h4, h5]

theorem callerStep_count_arm (t : CallerState) (e : CallerEvent) :
    (callerStep t e).2.count Eff.armMissedTimer = 0 := by
  have hco : ∀ u : CallerState,
      (cleanupEffs u).count Eff.armMissedTimer = 0 := fun u =>
    cleanupEffs_count_other u _ (by decide) (by decide) (by decide)
      (by decide) (by decide)
  cases e with
  | snapshot c =>
    simp only [callerStep, handleSnapshot, peerSignal, cleanup]
    split_ifs <;>
      simp_all [List.count_append, hco, flagEff_count, List.count_cons]
  | timerFire =>
    simp only [callerStep, missedTimerFire, cleanup]
    split_ifs <;> simp_all [List.count_append, hco, List.count_cons]
  | streamEvt =>
    simp only [callerStep, streamArrived]
    split_ifs <;> simp
  | offerReady => simp [callerStep]
  | hangup =>
    simp only [callerStep, endCall, cleanup]
    split_ifs <;> simp_all [List.count_append, hco, List.count_cons]
  | peerClosed =>
    simp only [callerStep, endCall, cleanup]
    split_ifs <;> simp_all [List.count_append, hco, List.count_cons]
  | toggleShare g =>
    cases g <;> simp only [callerStep, toggleScreenShare] <;>
      split_ifs <;> simp_all [List.count_append, flagEff_count]

theorem callerRun_count_arm (t : CallerState) (evs : List CallerEvent) :
    (callerRun t evs).2.count Eff.armMissedTimer = 0 := by
  induction evs generalizing t with
  | nil => simp [callerRun]
  | cons e es ih =>
    simp [callerRun, List.count_append, callerStep_count_arm, ih]

/-- C3: if the 30-second missed-call timeout fires while the attempt is
still in `calling`, then exactly one missed-call log entry is appended,
exactly one `missed` status write is made, the caller's local state
moves to missed, and teardown begins (timers stopped, peer destroyed,
close scheduled); moreover the timer is armed exactly once by
`initiateCall` and no event of the attempt ever re-arms it. -/
theorem missed_timeout_behavior (s : CallerState) (sid : Nat)
    (hlive : s.missedTimerLive = true)
    (hst : s.callStatusRef = CallStatus.calling) :
    (missedTimerFire s).1.callStatusRef = CallStatus.missed ∧
    (missedTimerFire s).2.count Eff.appendMissedLog = 1 ∧
    (missedTimerFire s).2.count (Eff.writeStatus CallStatus.missed) = 1 ∧
    (missedTimerFire s).1.missedTimerLive = false ∧
    (missedTimerFire s).1.durationRunning = false ∧
    (missedTimerFire s).1.peerDestroyed = (s.peerDestroyed || s.peerPresent) ∧
    Eff.scheduleClose ∈ (missedTimerFire s).2 ∧
    (callerInit (CaptureOutcome.granted sid)).2.count Eff.armMissedTimer = 1 ∧
    (∀ (t : CallerState) (evs : List CallerEvent),
      (callerRun t evs).2.count Eff.armMissedTimer = 0) := by
  refine ⟨?_, ?_, ?_, ?_, ?_, ?_, ?_, ?_, callerRun_count_arm⟩ <;>
    simp [missedTimerFire, hlive, hst, cleanup, cleanupState, cleanupEffs,
          callerInit, List.count_append, List.count_cons, flagEff_count,
          List.mem_append]

/-- C3 witness: the timeout firing on the concrete post-`initiateCall`
state (still `calling`) produces the missed state, one log entry and one
missed write. -/
theorem missed_timeout_behavior_witness :
    (missedTimerFire (initialCallerState 0)).1.callStatusRef =
      CallStatus.missed ∧
    (missedTimerFire (initialCallerState 0)).2.count Eff.appendMissedLog = 1 ∧
    (missedTimerFire (initialCallerState 0)).2.count
      (Eff.writeStatus CallStatus.missed) = 1 :=
  ⟨(missed_timeout_behavior (initialCallerState 0) 0 rfl rfl).1,
   (missed_timeout_behavior (initialCallerState 0) 0 rfl rfl).2.1,
   (missed_timeout_behavior (initialCallerState 0) 0 rfl rfl).2.2.1⟩

/-- C2 witness: three duplicate answer notifications from the concrete
initial state yield exactly one remote-description application. -/
theorem duplicate_answer_applied_once_witness :
    0 < 3 ∧
    ((callerRun (initialCallerState 0)
        (List.replicate 3 (CallerEvent.snapshot
          { status := CallStatus.active, callerId := 7, callerName := "a",
            offer := some 1, answer := some 42,
            timestamp := some 0 }))).2.countP isApplyRemote) = 1 :=
  ⟨by decide,
   (duplicate_answer_applied_once 0 7 42 "a" (some 1) (some 0) 3 (by decide)).1⟩

end ShubhChat
